import Mathlib

/-!
Shallow embedding of the optional-capability activation subsystem of
`cmd/main.go` (addon-controller): the presence probers `isCAPIInstalled`
and `isFluxInstalled`, the watcher loops `capiWatchers` and `fluxWatchers`
(modelled by `capiStep`/`fluxStep` iterated by `runLoop`), the CRD event
handlers `capiCRDHandler` and `fluxCRDHandler`, and the goroutine ordering
of `startWatchers` relative to `mgr.Start` in `main`.

Effects (API reads, failure log lines, sleeps, goroutine spawns, attach
calls, signal delivery) are recorded in an explicit event list.  The loops
are driven by a prober oracle `probe : Nat → GetResult` giving the API
server's answer to the i-th Get call of that loop, and an attach oracle
`attach : Nat → Bool` giving success of the i-th `WatchForCAPI` /
`WatchForFlux` call; `runLoop` takes fuel counting loop iterations, so a
result of `(evs, some s)` means the loop is still running after the fuel
ran out, while `(evs, none)` means the function returned.
-/

/-- Observable effects.  `apiGet n` is a point read of the CRD named `n`
(`c.Get`); `logMsg` is a failure log line (informational progress logs are
not modelled); `sleepSecond` is `time.Sleep(time.Second)`;
`startCRDWatcher g` is `go crd.WatchCustomResourceDefinition` with the
handler that filters on API group `g`; `attachInvoke t` is a
`WatchForCAPI`/`WatchForFlux` call on the reconciler named `t`;
`killSignal s` is an attempted delivery of signal `s` to the process's own
pid (`syscall.Kill(syscall.Getpid(), ...)`). -/
inductive Ev
  | apiGet (name : String)
  | logMsg
  | sleepSecond
  | startCRDWatcher (group : String)
  | attachInvoke (target : String)
  | killSignal (sig : String)
deriving DecidableEq, Repr, BEq

/-- Outcome of one `client.Get` of a CRD by name, as classified by the Go
error model: success, a NotFound API error, or any other error. -/
inductive GetResult
  | ok
  | notFound
  | otherErr (e : String)
deriving DecidableEq, Repr

/-- Name of the CRD whose existence signals the CAPI capability
(`"clusters.cluster.x-k8s.io"`, main.go line 279). -/
def capiCRDName : String := "clusters.cluster.x-k8s.io"

/-- `clusterv1.GroupVersion.Group` for cluster-api v1beta1. -/
def capiGroup : String := "cluster.x-k8s.io"

/-- Name of the CRD whose existence signals the Flux capability
(`"gitrepositories.source.toolkit.fluxcd.io"`, main.go line 303). -/
def fluxCRDName : String := "gitrepositories.source.toolkit.fluxcd.io"

/-- `sourcev1.GroupVersion.Group` for the Flux source controller. -/
def fluxGroup : String := "source.toolkit.fluxcd.io"

/-- `isCAPIInstalled` (main.go lines 276-288): one `c.Get` of the CAPI
signaling CRD; `err == nil` yields `(true, nil)`, a NotFound error yields
`(false, nil)`, any other error is returned as `(false, err)`.  The second
component is the effect trace of the call: exactly one API read. -/
def isCAPIInstalled (r : GetResult) : (Bool × Option String) × List Ev :=
  match r with
  | .ok => ((true, none), [Ev.apiGet capiCRDName])
  | .notFound => ((false, none), [Ev.apiGet capiCRDName])
  | .otherErr e => ((false, some e), [Ev.apiGet capiCRDName])

/-- `isFluxInstalled` (main.go lines 300-313): same shape as
`isCAPIInstalled` with the Flux signaling CRD. -/
def isFluxInstalled (r : GetResult) : (Bool × Option String) × List Ev :=
  match r with
  | .ok => ((true, none), [Ev.apiGet fluxCRDName])
  | .notFound => ((false, none), [Ev.apiGet fluxCRDName])
  | .otherErr e => ((false, some e), [Ev.apiGet fluxCRDName])

/-- `const maxRetries = 20` (main.go lines 321 and 369). -/
def maxRetries : Nat := 20

/-- Mutable state of one watcher loop: the `retries` counter, the number
of prober calls made so far (`pIdx`, indexing the prober oracle) and the
number of attach calls made so far (`aIdx`, indexing the attach oracle). -/
structure LoopSt where
  retries : Nat
  pIdx : Nat
  aIdx : Nat
deriving DecidableEq, Repr

/-- Loop state at function entry: `retries := 0`, no calls made yet. -/
def initSt : LoopSt := ⟨0, 0, 0⟩

/-- One iteration of the `for` loop of `capiWatchers` (main.go lines
323-362).  `hasProfiles` is `clusterProfileReconciler != nil` (equivalently
`profileReconciler != nil`: both are non-nil exactly when `shardKey == ""`,
lines 141-157).  Returns the events of the iteration and `none` if the
function returned, or `some s'` if the loop continues with state `s'`:
* prober error: log and sleep only while `retries < maxRetries`, then
  `retries++` and loop;
* CAPI absent: spawn the CRD watcher with `capiCRDHandler` and return;
* CAPI present: call `WatchForCAPI` on clusterProfile and profile (guarded
  by the nil checks, failures logged) and on clusterSummary (failure not
  logged); any failure does `continue`, success of all returns. -/
def capiStep (hasProfiles : Bool) (probe : Nat → GetResult) (attach : Nat → Bool)
    (s : LoopSt) : List Ev × Option LoopSt :=
  let r := isCAPIInstalled (probe s.pIdx)
  let getEvs := r.2
  match r.1.2 with
  | some _ =>
    if s.retries < maxRetries then
      (getEvs ++ [Ev.logMsg, Ev.sleepSecond],
       some { retries := s.retries + 1, pIdx := s.pIdx + 1, aIdx := s.aIdx })
    else
      (getEvs,
       some { retries := s.retries + 1, pIdx := s.pIdx + 1, aIdx := s.aIdx })
  | none =>
    if r.1.1 = false then
      (getEvs ++ [Ev.startCRDWatcher capiGroup], none)
    else
      if hasProfiles then
        if attach s.aIdx = false then
          (getEvs ++ [Ev.attachInvoke "clusterProfile", Ev.logMsg],
           some { retries := s.retries, pIdx := s.pIdx + 1, aIdx := s.aIdx + 1 })
        else if attach (s.aIdx + 1) = false then
          (getEvs ++ [Ev.attachInvoke "clusterProfile", Ev.attachInvoke "profile", Ev.logMsg],
           some { retries := s.retries, pIdx := s.pIdx + 1, aIdx := s.aIdx + 2 })
        else if attach (s.aIdx + 2) = false then
          (getEvs ++ [Ev.attachInvoke "clusterProfile", Ev.attachInvoke "profile",
            Ev.attachInvoke "clusterSummary"],
           some { retries := s.retries, pIdx := s.pIdx + 1, aIdx := s.aIdx + 3 })
        else
          (getEvs ++ [Ev.attachInvoke "clusterProfile", Ev.attachInvoke "profile",
            Ev.attachInvoke "clusterSummary"], none)
      else
        if attach s.aIdx = false then
          (getEvs ++ [Ev.attachInvoke "clusterSummary"],
           some { retries := s.retries, pIdx := s.pIdx + 1, aIdx := s.aIdx + 1 })
        else
          (getEvs ++ [Ev.attachInvoke "clusterSummary"], none)

/-- One iteration of the `for` loop of `fluxWatchers` (main.go lines
371-392): same retry structure as `capiStep`; when Flux is present there
is a single `WatchForFlux` call on clusterSummary whose failure is not
logged and does `continue`. -/
def fluxStep (probe : Nat → GetResult) (attach : Nat → Bool)
    (s : LoopSt) : List Ev × Option LoopSt :=
  let r := isFluxInstalled (probe s.pIdx)
  let getEvs := r.2
  match r.1.2 with
  | some _ =>
    if s.retries < maxRetries then
      (getEvs ++ [Ev.logMsg, Ev.sleepSecond],
       some { retries := s.retries + 1, pIdx := s.pIdx + 1, aIdx := s.aIdx })
    else
      (getEvs,
       some { retries := s.retries + 1, pIdx := s.pIdx + 1, aIdx := s.aIdx })
  | none =>
    if r.1.1 = false then
      (getEvs ++ [Ev.startCRDWatcher fluxGroup], none)
    else
      if attach s.aIdx = false then
        (getEvs ++ [Ev.attachInvoke "clusterSummaryFlux"],
         some { retries := s.retries, pIdx := s.pIdx + 1, aIdx := s.aIdx + 1 })
      else
        (getEvs ++ [Ev.attachInvoke "clusterSummaryFlux"], none)

/-- Iterate one watcher loop for at most `fuel` iterations, concatenating
events.  `(evs, none)` means the Go function returned within the fuel;
`(evs, some s)` means after `fuel` iterations the loop is still running in
state `s`. -/
def runLoop (step : LoopSt → List Ev × Option LoopSt) : Nat → LoopSt → List Ev × Option LoopSt
  | 0, s => ([], some s)
  | n + 1, s =>
    match step s with
    | (evs, none) => (evs, none)
    | (evs, some s') =>
      let rest := runLoop step n s'
      (evs ++ rest.1, rest.2)

/-- Whether a CRD-handler invocation returned normally or panicked. -/
inductive HandlerOutcome
  | returned
  | panicked
deriving DecidableEq, Repr

/-- `capiCRDHandler` (main.go lines 267-273): on a CRD event whose group
equals the CAPI group, attempt `syscall.Kill(syscall.Getpid(), SIGTERM)`
and panic if delivery fails; on any other group, do nothing.  `killOk`
models whether the kill syscall succeeds. -/
def capiCRDHandler (gvkGroup : String) (killOk : Bool) : List Ev × HandlerOutcome :=
  if gvkGroup = capiGroup then
    if killOk then ([Ev.killSignal "SIGTERM"], HandlerOutcome.returned)
    else ([Ev.killSignal "SIGTERM"], HandlerOutcome.panicked)
  else ([], HandlerOutcome.returned)

/-- `fluxCRDHandler` (main.go lines 291-297): same as `capiCRDHandler`
with the Flux group. -/
def fluxCRDHandler (gvkGroup : String) (killOk : Bool) : List Ev × HandlerOutcome :=
  if gvkGroup = fluxGroup then
    if killOk then ([Ev.killSignal "SIGTERM"], HandlerOutcome.returned)
    else ([Ev.killSignal "SIGTERM"], HandlerOutcome.panicked)
  else ([], HandlerOutcome.returned)

/-- `if shardKey == ""` (main.go line 141): the ClusterProfile and Profile
reconcilers and controllers are created only when no shard key is
configured; otherwise both stay nil. -/
def profileReconcilersCreated (shardKey : String) : Bool := shardKey == ""

/-- Events of the main goroutine and the two watcher goroutines, for the
ordering model of `startWatchers` and `main`.  `spawnCapi`/`spawnFlux` are
the two `go` statements of `startWatchers` (main.go lines 400 and 406);
`managerStart` is the `mgr.Start(ctx)` call (line 179); `capiEv`/`fluxEv`
tag an event of the corresponding watcher goroutine. -/
inductive MEv
  | spawnCapi
  | spawnFlux
  | managerStart
  | capiEv (e : Ev)
  | fluxEv (e : Ev)
deriving DecidableEq, Repr, BEq

/-- Events `startWatchers` itself performs on the main goroutine: it only
spawns the two pipelines and returns (main.go lines 395-409). -/
def startWatchersMainEvs : List MEv := [MEv.spawnCapi, MEv.spawnFlux]

/-- Tail of `main` from the `startWatchers` call on: spawn both pipelines,
then call `mgr.Start` (main.go lines 174-179). -/
def mainTailEvs : List MEv := startWatchersMainEvs ++ [MEv.managerStart]

/-- `Shuffle xs ys zs`: `zs` is an order-preserving interleaving of `xs`
and `ys`. -/
inductive Shuffle : List MEv → List MEv → List MEv → Prop
  | nil : Shuffle [] [] []
  | left {x : MEv} {xs ys zs : List MEv} :
      Shuffle xs ys zs → Shuffle (x :: xs) ys (x :: zs)
  | right {y : MEv} {xs ys zs : List MEv} :
      Shuffle xs ys zs → Shuffle xs (y :: ys) (y :: zs)

/-- Is this an event of the CAPI watcher goroutine? -/
def isCapiEv : MEv → Bool
  | .capiEv _ => true
  | _ => false

/-- Is this an event of the Flux watcher goroutine? -/
def isFluxEv : MEv → Bool
  | .fluxEv _ => true
  | _ => false

/-- Is this an attach (`WatchForCAPI`/`WatchForFlux`) call of either
pipeline? -/
def isAttachMEv : MEv → Bool
  | .capiEv (.attachInvoke _) => true
  | .fluxEv (.attachInvoke _) => true
  | _ => false

/-- A trace `tr` is a realizable execution of the tail of `main` with
given capi and flux pipeline traces: it interleaves the main goroutine's
events with the two pipelines' events (each pipeline's internal order
preserved), and — this is the semantics of `go` — no pipeline event occurs
before the corresponding spawn. -/
def ValidExec (capiTr fluxTr : List Ev) (tr : List MEv) : Prop :=
  (∃ mid, Shuffle mainTailEvs (capiTr.map MEv.capiEv) mid ∧
    Shuffle mid (fluxTr.map MEv.fluxEv) tr) ∧
  (tr.takeWhile (fun e => !(e == MEv.spawnCapi))).all (fun e => !(isCapiEv e)) = true ∧
  (tr.takeWhile (fun e => !(e == MEv.spawnFlux))).all (fun e => !(isFluxEv e)) = true

/-- Events of one iteration of a watcher loop whose prober call failed,
entered with `retries = r`: the API read, then (only while `r` is below
`maxRetries`) the failure log and the one-second sleep. -/
def errIterEvents (name : String) (r : Nat) : List Ev :=
  if r < maxRetries then [Ev.apiGet name, Ev.logMsg, Ev.sleepSecond]
  else [Ev.apiGet name]

/-- Events of `n` consecutive prober-failure iterations starting at
`retries = r`. -/
def errRunEvents (name : String) : Nat → Nat → List Ev
  | 0, _ => []
  | n + 1, r => errIterEvents name r ++ errRunEvents name n (r + 1)

/-- Prober oracle under which every Get fails transiently. -/
def transientProbe : Nat → GetResult := fun _ => GetResult.otherErr "connection refused"

/-- Prober oracle modelling a cancelled root context: from the moment of
cancellation, every `c.Get(ctx, ...)` fails with the context error, which
is neither nil nor NotFound. -/
def cancelProbe : Nat → GetResult := fun _ => GetResult.otherErr "context canceled"

/-- Prober oracle under which every Get succeeds (capability present). -/
def alwaysOkProbe : Nat → GetResult := fun _ => GetResult.ok

/-- Attach oracle under which every `WatchFor*` call succeeds. -/
def alwaysAttachOk : Nat → Bool := fun _ => true

/-- Attach oracle whose first call fails and whose later calls succeed. -/
def failFirstAttach : Nat → Bool := fun i => !(i == 0)

/-- Attach oracle under which every `WatchFor*` call fails. -/
def alwaysFailAttach : Nat → Bool := fun _ => false

/-- Prober oracle under which every Get reports NotFound (capability
absent). -/
def absentProbe : Nat → GetResult := fun _ => GetResult.notFound

/-- Trace of the CAPI pipeline when CAPI is present at boot, profiles are
enabled and every attach succeeds: it resolves in one iteration. -/
def capiPresentTrace : List Ev :=
  (runLoop (capiStep true alwaysOkProbe alwaysAttachOk) 1 initSt).1

/-- Trace of the Flux pipeline when Flux is present at boot and the attach
succeeds. -/
def fluxPresentTrace : List Ev :=
  (runLoop (fluxStep alwaysOkProbe alwaysAttachOk) 1 initSt).1

/-- The CAPI present-at-boot trace, tagged as CAPI-goroutine events. -/
def capiM : List MEv := capiPresentTrace.map MEv.capiEv

/-- The Flux present-at-boot trace, tagged as Flux-goroutine events. -/
def fluxM : List MEv := fluxPresentTrace.map MEv.fluxEv

/-- An execution in which the manager starts before either pipeline gets
to run: both spawns, then `mgr.Start`, then the pipelines. -/
def raceTrace : List MEv := mainTailEvs ++ capiM ++ fluxM

/-- An execution in which both pipelines finish attaching before
`mgr.Start` runs. -/
def orderedTrace : List MEv :=
  [MEv.spawnCapi, MEv.spawnFlux] ++ capiM ++ fluxM ++ [MEv.managerStart]

theorem shuffle_nil_right (xs : List MEv) : Shuffle xs [] xs := by
  induction xs with
  | nil => exact .nil
  | cons x xs ih => exact .left ih

theorem shuffle_nil_left (ys : List MEv) : Shuffle [] ys ys := by
  induction ys with
  | nil => exact .nil
  | cons y ys ih => exact .right ih

theorem shuffle_append_left (xs ys : List MEv) : Shuffle xs ys (xs ++ ys) := by
  induction xs with
  | nil => simpa using shuffle_nil_left ys
  | cons x xs ih => exact .left ih

theorem shuffle_append_right (xs ys : List MEv) : Shuffle xs ys (ys ++ xs) := by
  induction ys with
  | nil => simpa using shuffle_nil_right xs
  | cons y ys ih => exact .right ih

theorem shuffle_prepend (ws : List MEv) {xs ys zs : List MEv} (h : Shuffle xs ys zs) :
    Shuffle (ws ++ xs) ys (ws ++ zs) := by
  induction ws with
  | nil => simpa using h
  | cons w ws ih => exact .left ih

theorem runLoop_succ_cont (step : LoopSt → List Ev × Option LoopSt) (n : Nat) (s : LoopSt)
    (evs : List Ev) (s' : LoopSt) (h : step s = (evs, some s')) :
    runLoop step (n + 1) s =
      (evs ++ (runLoop step n s').1, (runLoop step n s').2) := by
  simp [runLoop, h]

theorem runLoop_succ_done (step : LoopSt → List Ev × Option LoopSt) (n : Nat) (s : LoopSt)
    (evs : List Ev) (h : step s = (evs, none)) :
    runLoop step (n + 1) s = (evs, none) := by
  simp [runLoop, h]

theorem capi_allerr_step (hp : Bool) (att : Nat → Bool) (es : Nat → String) (s : LoopSt) :
    capiStep hp (fun i => GetResult.otherErr (es i)) att s =
      (errIterEvents capiCRDName s.retries,
       some { retries := s.retries + 1, pIdx := s.pIdx + 1, aIdx := s.aIdx }) := by
  by_cases hr : s.retries < maxRetries <;>
    simp [capiStep, isCAPIInstalled, errIterEvents, hr]

theorem flux_allerr_step (att : Nat → Bool) (es : Nat → String) (s : LoopSt) :
    fluxStep (fun i => GetResult.otherErr (es i)) att s =
      (errIterEvents fluxCRDName s.retries,
       some { retries := s.retries + 1, pIdx := s.pIdx + 1, aIdx := s.aIdx }) := by
  by_cases hr : s.retries < maxRetries <;>
    simp [fluxStep, isFluxInstalled, errIterEvents, hr]

theorem capi_allerr_run (hp : Bool) (att : Nat → Bool) (es : Nat → String) :
    ∀ (n : Nat) (s : LoopSt),
      runLoop (capiStep hp (fun i => GetResult.otherErr (es i)) att) n s =
        (errRunEvents capiCRDName n s.retries,
         some ⟨s.retries + n, s.pIdx + n, s.aIdx⟩) := by
  intro n
  induction n with
  | zero =>
    intro s
    simp [runLoop, errRunEvents]
  | succ n ih =>
    intro s
    rw [runLoop_succ_cont _ n s _ _ (capi_allerr_step hp att es s), ih]
    simp [errRunEvents, LoopSt.mk.injEq]
    omega

theorem flux_allerr_run (att : Nat → Bool) (es : Nat → String) :
    ∀ (n : Nat) (s : LoopSt),
      runLoop (fluxStep (fun i => GetResult.otherErr (es i)) att) n s =
        (errRunEvents fluxCRDName n s.retries,
         some ⟨s.retries + n, s.pIdx + n, s.aIdx⟩) := by
  intro n
  induction n with
  | zero =>
    intro s
    simp [runLoop, errRunEvents]
  | succ n ih =>
    intro s
    rw [runLoop_succ_cont _ n s _ _ (flux_allerr_step att es s), ih]
    simp [errRunEvents, LoopSt.mk.injEq]
    omega

theorem beq_sleep_apiGet (name : String) : (Ev.sleepSecond == Ev.apiGet name) = false := rfl

theorem beq_apiGet_sleep (name : String) : (Ev.apiGet name == Ev.sleepSecond) = false := rfl

theorem beq_sleep_logMsg : (Ev.sleepSecond == Ev.logMsg) = false := rfl

theorem beq_logMsg_sleep : (Ev.logMsg == Ev.sleepSecond) = false := rfl

theorem beq_sleep_sleep : (Ev.sleepSecond == Ev.sleepSecond) = true := rfl

theorem errRunEvents_count_sleep (name : String) :
    ∀ n r, (errRunEvents name n r).count Ev.sleepSecond = min n (maxRetries - r) := by
  intro n
  induction n with
  | zero =>
    intro r
    simp [errRunEvents]
  | succ n ih =>
    intro r
    by_cases hr : r < maxRetries <;>
      simp [errRunEvents, errIterEvents, hr, List.count_append, List.count_cons,
        beq_sleep_apiGet, beq_apiGet_sleep, beq_sleep_logMsg, beq_logMsg_sleep,
        beq_sleep_sleep, ih] <;> omega

theorem errRunEvents_mem (name : String) :
    ∀ n r e, e ∈ errRunEvents name n r →
      e = Ev.apiGet name ∨ e = Ev.logMsg ∨ e = Ev.sleepSecond := by
  intro n
  induction n with
  | zero =>
    intro r e h
    simp [errRunEvents] at h
  | succ n ih =>
    intro r e h
    simp only [errRunEvents, List.mem_append] at h
    rcases h with h1 | h2
    · by_cases hr : r < maxRetries <;> simp [errIterEvents, hr] at h1 <;> tauto
    · exact ih (r + 1) e h2

theorem errRunEvents_sleep_mem (name : String) (n : Nat) :
    Ev.sleepSecond ∈ errRunEvents name (n + 1) 0 := by
  have h : (0 : Nat) < maxRetries := by decide
  simp [errRunEvents, errIterEvents, h]

theorem validExec_race : ValidExec capiPresentTrace fluxPresentTrace raceTrace := by
  refine ⟨⟨mainTailEvs ++ capiM, ?_, ?_⟩, ?_, ?_⟩
  · exact shuffle_append_left mainTailEvs capiM
  · exact shuffle_append_left (mainTailEvs ++ capiM) fluxM
  · decide
  · decide

theorem validExec_ordered : ValidExec capiPresentTrace fluxPresentTrace orderedTrace := by
  refine ⟨⟨([MEv.spawnCapi, MEv.spawnFlux] ++ capiM) ++ [MEv.managerStart], ?_, ?_⟩, ?_, ?_⟩
  · have h := shuffle_prepend [MEv.spawnCapi, MEv.spawnFlux]
      (shuffle_append_right [MEv.managerStart] capiM)
    simpa [mainTailEvs, startWatchersMainEvs, List.append_assoc] using h
  · have h := shuffle_prepend ([MEv.spawnCapi, MEv.spawnFlux] ++ capiM)
      (shuffle_append_right [MEv.managerStart] fluxM)
    simpa [orderedTrace, List.append_assoc] using h
  · decide
  · decide

/-- C2: for every invocation, each presence prober performs exactly one
point read of its capability's signaling CRD (the effect trace is exactly
one `apiGet`, so it never retries or sleeps), and classifies the outcome:
a successful read gives `(true, nil)` (Present), a NotFound response gives
`(false, nil)` (Absent), and any other error is returned as the error
(TransientError). -/
theorem c2_prober_single_read_classification (r : GetResult) :
    (isCAPIInstalled r).2 = [Ev.apiGet capiCRDName] ∧
    (isFluxInstalled r).2 = [Ev.apiGet fluxCRDName] ∧
    (isCAPIInstalled r).1 =
      (match r with
       | GetResult.ok => (true, (none : Option String))
       | GetResult.notFound => (false, none)
       | GetResult.otherErr e => (false, some e)) ∧
    (isFluxInstalled r).1 =
      (match r with
       | GetResult.ok => (true, (none : Option String))
       | GetResult.notFound => (false, none)
       | GetResult.otherErr e => (false, some e)) := by
  cases r <;> simp [isCAPIInstalled, isFluxInstalled]

/-- C4: if the prober reports Absent (NotFound) on the first call, each
watcher loop returns after one iteration whose events are exactly one API
read followed by exactly one spawn of the CRD install watcher for the
capability's API group; no attach call is ever made for that capability in
that process lifetime. -/
theorem c4_absent_starts_watcher_once (hp : Bool) (probe : Nat → GetResult)
    (att attF : Nat → Bool) (h0 : probe 0 = GetResult.notFound) :
    runLoop (capiStep hp probe att) 1 initSt =
      ([Ev.apiGet capiCRDName, Ev.startCRDWatcher capiGroup], none) ∧
    runLoop (fluxStep probe attF) 1 initSt =
      ([Ev.apiGet fluxCRDName, Ev.startCRDWatcher fluxGroup], none) := by
  constructor <;>
    simp [runLoop, capiStep, fluxStep, isCAPIInstalled, isFluxInstalled, initSt, h0]

/-- C4 witness: concrete run with an always-NotFound prober. -/
theorem c4_witness :
    runLoop (capiStep true absentProbe alwaysAttachOk) 1 initSt =
      ([Ev.apiGet capiCRDName, Ev.startCRDWatcher capiGroup], none) ∧
    runLoop (fluxStep absentProbe alwaysAttachOk) 1 initSt =
      ([Ev.apiGet fluxCRDName, Ev.startCRDWatcher fluxGroup], none) :=
  c4_absent_starts_watcher_once true absentProbe alwaysAttachOk alwaysAttachOk rfl

/-- C5: for each handler separately, a CRD event whose group differs from
that handler's configured group produces no effect at all (in particular
no termination signal) — this covers any foreign group, including the
other capability's group — while an event whose group matches makes the
handler deliver SIGTERM to the process's own pid. -/
theorem c5_handler_group_filter (g : String) (killOk : Bool) :
    (g ≠ capiGroup → capiCRDHandler g killOk = ([], HandlerOutcome.returned)) ∧
    (g ≠ fluxGroup → fluxCRDHandler g killOk = ([], HandlerOutcome.returned)) ∧
    (capiCRDHandler capiGroup killOk).1 = [Ev.killSignal "SIGTERM"] ∧
    (fluxCRDHandler fluxGroup killOk).1 = [Ev.killSignal "SIGTERM"] := by
  refine ⟨?_, ?_, ?_, ?_⟩
  · intro hg
    simp [capiCRDHandler, hg]
  · intro hg
    simp [fluxCRDHandler, hg]
  · cases killOk <;> simp [capiCRDHandler]
  · cases killOk <;> simp [fluxCRDHandler]

/-- C5 witness: the cross-capability mismatches — a Flux-group event at
the CAPI handler and a CAPI-group event at the Flux handler do nothing —
and both matching-group SIGTERM deliveries. -/
theorem c5_witness :
    capiCRDHandler fluxGroup true = ([], HandlerOutcome.returned) ∧
    fluxCRDHandler capiGroup true = ([], HandlerOutcome.returned) ∧
    (capiCRDHandler capiGroup true).1 = [Ev.killSignal "SIGTERM"] ∧
    (fluxCRDHandler fluxGroup true).1 = [Ev.killSignal "SIGTERM"] :=
  ⟨(c5_handler_group_filter fluxGroup true).1 (by decide),
   (c5_handler_group_filter capiGroup true).2.1 (by decide),
   (c5_handler_group_filter capiGroup true).2.2.1,
   (c5_handler_group_filter fluxGroup true).2.2.2⟩

/-- C9: when the group matches, a failed SIGTERM delivery makes the
handler panic (the process halts), and a successful delivery makes it
return normally, for both CRD handlers. -/
theorem c9_kill_failure_halts :
    capiCRDHandler capiGroup false = ([Ev.killSignal "SIGTERM"], HandlerOutcome.panicked) ∧
    capiCRDHandler capiGroup true = ([Ev.killSignal "SIGTERM"], HandlerOutcome.returned) ∧
    fluxCRDHandler fluxGroup false = ([Ev.killSignal "SIGTERM"], HandlerOutcome.panicked) ∧
    fluxCRDHandler fluxGroup true = ([Ev.killSignal "SIGTERM"], HandlerOutcome.returned) := by
  decide

/-- C1 counterexample: with a prober that fails transiently on every call
the CAPI watcher loop has not resolved anything after 25 iterations — it
is still running with `retries = 25` and the CRD install watcher (the
Absent path) was never started (zero watcher-spawn events), refuting termination after at most
`maxAttempts = 20` attempts with an Absent resolution. -/
theorem c1_counterexample :
    (runLoop (capiStep true transientProbe alwaysAttachOk) 25 initSt).2 =
      some { retries := 25, pIdx := 25, aIdx := 0 } ∧
    ((runLoop (capiStep true transientProbe alwaysAttachOk) 25 initSt).1).count
      (Ev.startCRDWatcher capiGroup) = 0 := by
  decide

/-- C1 amended: under persistent transient errors neither watcher loop
ever gives up — after any number `n` of iterations it is still running
with `retries = n`, having made `n` API reads; it sleeps one second per
failure only for the first `maxRetries = 20` failures (so the total slept
time is bounded by 20 seconds) and thereafter retries without any delay;
the capability is never resolved as Absent. -/
theorem c1_amended (hp : Bool) (att attF : Nat → Bool) (es esF : Nat → String) (n : Nat) :
    runLoop (capiStep hp (fun i => GetResult.otherErr (es i)) att) n initSt =
      (errRunEvents capiCRDName n 0, some ⟨n, n, 0⟩) ∧
    (errRunEvents capiCRDName n 0).count Ev.sleepSecond = min n maxRetries ∧
    runLoop (fluxStep (fun i => GetResult.otherErr (esF i)) attF) n initSt =
      (errRunEvents fluxCRDName n 0, some ⟨n, n, 0⟩) ∧
    (errRunEvents fluxCRDName n 0).count Ev.sleepSecond = min n maxRetries := by
  refine ⟨?_, ?_, ?_, ?_⟩
  · simpa [initSt] using capi_allerr_run hp att es n initSt
  · simpa using errRunEvents_count_sleep capiCRDName n 0
  · simpa [initSt] using flux_allerr_run attF esF n initSt
  · simpa using errRunEvents_count_sleep fluxCRDName n 0

/-- C3 counterexample: with the prober answering Present on the first
(and every) call but the first attach call failing, the ClusterProfile
attach is invoked twice within two loop iterations, refuting "attach is
invoked exactly once". -/
theorem c3_counterexample :
    alwaysOkProbe 0 = GetResult.ok ∧
    ((runLoop (capiStep true alwaysOkProbe failFirstAttach) 2 initSt).1).count
      (Ev.attachInvoke "clusterProfile") = 2 ∧
    (runLoop (capiStep true alwaysOkProbe failFirstAttach) 2 initSt).2 = none := by
  decide

/-- C3 amended: if the prober returns Present on the first call and every
attach call succeeds, each loop returns after one iteration whose trace is
exactly one API read followed by exactly one attach call per applicable
controller, and the CRD install watcher (hence the restart trigger) is
never started; when an attach call fails the loop instead re-probes and
re-attaches. -/
theorem c3_amended (probe : Nat → GetResult) (att : Nat → Bool)
    (h0 : probe 0 = GetResult.ok) (hA : ∀ i, att i = true) :
    runLoop (capiStep true probe att) 1 initSt =
      ([Ev.apiGet capiCRDName, Ev.attachInvoke "clusterProfile", Ev.attachInvoke "profile",
        Ev.attachInvoke "clusterSummary"], none) ∧
    runLoop (capiStep false probe att) 1 initSt =
      ([Ev.apiGet capiCRDName, Ev.attachInvoke "clusterSummary"], none) ∧
    runLoop (fluxStep probe att) 1 initSt =
      ([Ev.apiGet fluxCRDName, Ev.attachInvoke "clusterSummaryFlux"], none) := by
  refine ⟨?_, ?_, ?_⟩ <;>
    simp [runLoop, capiStep, fluxStep, isCAPIInstalled, isFluxInstalled, initSt, h0, hA]

/-- C3 witness: concrete run with Present prober and succeeding attaches. -/
theorem c3_witness :
    runLoop (capiStep true alwaysOkProbe alwaysAttachOk) 1 initSt =
      ([Ev.apiGet capiCRDName, Ev.attachInvoke "clusterProfile", Ev.attachInvoke "profile",
        Ev.attachInvoke "clusterSummary"], none) ∧
    runLoop (capiStep false alwaysOkProbe alwaysAttachOk) 1 initSt =
      ([Ev.apiGet capiCRDName, Ev.attachInvoke "clusterSummary"], none) ∧
    runLoop (fluxStep alwaysOkProbe alwaysAttachOk) 1 initSt =
      ([Ev.apiGet fluxCRDName, Ev.attachInvoke "clusterSummaryFlux"], none) :=
  c3_amended alwaysOkProbe alwaysAttachOk rfl (fun _ => rfl)

/-- C6 counterexample: after a failed attach at boot (capability Present,
first attach call fails) the loop neither gives up nor proceeds without
the watch: within two iterations it has issued a second API read
(re-probe) and, already after the first iteration, it continues looping
with the call counters advanced — refuting "final, no re-probe, no
retry". -/
theorem c6_counterexample :
    ((runLoop (capiStep true alwaysOkProbe failFirstAttach) 2 initSt).1).count
      (Ev.apiGet capiCRDName) = 2 ∧
    (capiStep true alwaysOkProbe failFirstAttach initSt).2 =
      some { retries := 0, pIdx := 1, aIdx := 1 } := by
  decide

/-- C6 amended: a failed attach call is non-fatal but not final — the
iteration ends with `continue`, so the loop re-probes (the prober call
index advances) and will retry attachment; the failure of a profile attach
is logged while the failure of the clusterSummary Flux attach is not. -/
theorem c6_amended (probe : Nat → GetResult) (att : Nat → Bool) (s : LoopSt)
    (hpr : probe s.pIdx = GetResult.ok) (ha : att s.aIdx = false) :
    (capiStep true probe att s).2 =
      some { retries := s.retries, pIdx := s.pIdx + 1, aIdx := s.aIdx + 1 } ∧
    Ev.logMsg ∈ (capiStep true probe att s).1 ∧
    (fluxStep probe att s).2 =
      some { retries := s.retries, pIdx := s.pIdx + 1, aIdx := s.aIdx + 1 } ∧
    Ev.logMsg ∉ (fluxStep probe att s).1 := by
  refine ⟨?_, ?_, ?_, ?_⟩ <;>
    simp [capiStep, fluxStep, isCAPIInstalled, isFluxInstalled, hpr, ha]

/-- C6 witness: concrete failing attach at the initial state. -/
theorem c6_witness :
    (capiStep true alwaysOkProbe alwaysFailAttach initSt).2 =
      some { retries := 0, pIdx := 1, aIdx := 1 } ∧
    Ev.logMsg ∈ (capiStep true alwaysOkProbe alwaysFailAttach initSt).1 ∧
    (fluxStep alwaysOkProbe alwaysFailAttach initSt).2 =
      some { retries := 0, pIdx := 1, aIdx := 1 } ∧
    Ev.logMsg ∉ (fluxStep alwaysOkProbe alwaysFailAttach initSt).1 :=
  c6_amended alwaysOkProbe alwaysFailAttach initSt rfl rfl

/-- C7 counterexample: `startWatchers` launches the pipelines with `go`
and returns, so there is a realizable execution of the tail of `main` —
with CAPI and Flux present at boot and all attaches succeeding — in which
`mgr.Start` runs before any attach call: attachment is not performed
synchronously before the manager start call, refuting "never racing
against manager startup". -/
theorem c7_counterexample :
    ValidExec capiPresentTrace fluxPresentTrace raceTrace ∧
    raceTrace.findIdx (fun e => e == MEv.managerStart) <
      raceTrace.findIdx isAttachMEv :=
  ⟨validExec_race, by decide⟩

/-- C7 amended: the pipelines run in goroutines concurrent with
`mgr.Start`; both orders are realizable executions — one where every
attach call of both Present-at-boot pipelines precedes the manager start,
and one where the manager start precedes every attach call — so
attachment is not ordered before manager startup. -/
theorem c7_amended :
    (ValidExec capiPresentTrace fluxPresentTrace orderedTrace ∧
     (orderedTrace.takeWhile (fun e => !(e == MEv.managerStart))).countP isAttachMEv =
       orderedTrace.countP isAttachMEv) ∧
    (ValidExec capiPresentTrace fluxPresentTrace raceTrace ∧
     raceTrace.findIdx (fun e => e == MEv.managerStart) <
       raceTrace.findIdx isAttachMEv) :=
  ⟨⟨validExec_ordered, by decide⟩, ⟨validExec_race, by decide⟩⟩

/-- C8 counterexample: with the root context cancelled from the start
(every `c.Get` fails with the context error), the CAPI pipeline does not
observe cancellation and exit — after 30 iterations it is still looping —
and the uncancellable one-second sleeps still happen (a sleep event occurs
after cancellation); the Flux pipeline is still looping as well. -/
theorem c8_counterexample :
    ((runLoop (capiStep true cancelProbe alwaysAttachOk) 30 initSt).2).isSome = true ∧
    ((runLoop (capiStep true cancelProbe alwaysAttachOk) 30 initSt).1).count
      Ev.sleepSecond = 20 ∧
    ((runLoop (fluxStep cancelProbe alwaysAttachOk) 30 initSt).2).isSome = true := by
  decide

/-- C8 amended: once the context is cancelled every prober call fails,
and each watcher loop treats that as a transient error forever: after any
number of further iterations it is still running (it never exits in
response to cancellation), the inter-attempt sleep still occurs (it is
plain `time.Sleep`, not interruptible by the context) for the first 20
post-cancellation failures, and the loop itself emits no termination
signal. -/
theorem c8_amended (hp : Bool) (att attF : Nat → Bool) (es esF : Nat → String) (n : Nat) :
    ((runLoop (capiStep hp (fun i => GetResult.otherErr (es i)) att) (n + 1) initSt).2).isSome
      = true ∧
    Ev.killSignal "SIGTERM" ∉
      (runLoop (capiStep hp (fun i => GetResult.otherErr (es i)) att) (n + 1) initSt).1 ∧
    Ev.sleepSecond ∈
      (runLoop (capiStep hp (fun i => GetResult.otherErr (es i)) att) (n + 1) initSt).1 ∧
    ((runLoop (fluxStep (fun i => GetResult.otherErr (esF i)) attF) (n + 1) initSt).2).isSome
      = true ∧
    Ev.killSignal "SIGTERM" ∉
      (runLoop (fluxStep (fun i => GetResult.otherErr (esF i)) attF) (n + 1) initSt).1 ∧
    Ev.sleepSecond ∈
      (runLoop (fluxStep (fun i => GetResult.otherErr (esF i)) attF) (n + 1) initSt).1 := by
  have hc := capi_allerr_run hp att es (n + 1) initSt
  have hf := flux_allerr_run attF esF (n + 1) initSt
  rw [hc, hf]
  refine ⟨rfl, ?_, ?_, rfl, ?_, ?_⟩
  · intro h
    rcases errRunEvents_mem capiCRDName (n + 1) initSt.retries _ h with h1 | h1 | h1 <;>
      exact Ev.noConfusion h1
  · exact errRunEvents_sleep_mem capiCRDName n
  · intro h
    rcases errRunEvents_mem fluxCRDName (n + 1) initSt.retries _ h with h1 | h1 | h1 <;>
      exact Ev.noConfusion h1
  · exact errRunEvents_sleep_mem fluxCRDName n

/-- C10: when a shard key is configured the ClusterProfile and Profile
reconcilers are not created (the nil guard `profileReconcilersCreated` is
false), and the CAPI Present branch then performs no attach call on the
profile reconcilers — only the single clusterSummary attach — so the
guarded path never dereferences the nil reconcilers. -/
theorem c10_shard_nil_guard (shardKey : String) (probe : Nat → GetResult) (att : Nat → Bool)
    (hs : shardKey ≠ "") (h0 : probe 0 = GetResult.ok) (ha : att 0 = true) :
    profileReconcilersCreated shardKey = false ∧
    runLoop (capiStep (profileReconcilersCreated shardKey) probe att) 1 initSt =
      ([Ev.apiGet capiCRDName, Ev.attachInvoke "clusterSummary"], none) := by
  have hpc : profileReconcilersCreated shardKey = false := by
    simp [profileReconcilersCreated, hs]
  refine ⟨hpc, ?_⟩
  rw [hpc]
  simp [runLoop, capiStep, isCAPIInstalled, initSt, h0, ha]

/-- C10 witness: concrete shard key `"shard1"`. -/
theorem c10_witness :
    profileReconcilersCreated "shard1" = false ∧
    runLoop (capiStep (profileReconcilersCreated "shard1") alwaysOkProbe alwaysAttachOk)
        1 initSt =
      ([Ev.apiGet capiCRDName, Ev.attachInvoke "clusterSummary"], none) :=
  c10_shard_nil_guard "shard1" alwaysOkProbe alwaysAttachOk (by decide) rfl rfl
